import Mathlib

/-!
Verification development for the `beekeeper` backup-retention tool
(`src/beekeeper.py`).  The Python source is shallowly embedded below:
pure helpers become Lean functions, the filesystem and the interactive
prompt become explicit inputs (directory entries with a directory flag
and a modification date, a confirmation reply string, an oracle giving
the outcome of each `shutil.rmtree` call), and Python `datetime` library
behaviour used by the source (`date` ordinals, `date.isocalendar`,
`datetime.strptime` validation) is modelled faithfully next to it.
-/

/-- A calendar date as produced by Python `datetime.date`:
year/month/day, no time component. -/
structure Date where
  year : Nat
  month : Nat
  day : Nat
deriving DecidableEq

/-- Leap-year test of the proleptic Gregorian calendar, as in Python
`calendar.isleap` / `datetime`. -/
def is_leap (y : Nat) : Bool :=
  y % 4 = 0 && (y % 100 ≠ 0 || y % 400 = 0)

/-- Days in a month (1-12); 0 for an out-of-range month so that any
day bound check fails, matching `datetime.date` rejecting it. -/
def days_in_month (y m : Nat) : Nat :=
  [31, if is_leap y then 29 else 28, 31, 30, 31, 30,
   31, 31, 30, 31, 30, 31].getD (m - 1) 0

/-- `datetime`'s `_days_before_year`: days between day 0 and Jan 1 of
year `y` in the proleptic Gregorian calendar. -/
def days_before_year (y : Int) : Int :=
  (y - 1) * 365 + (y - 1).fdiv 4 - (y - 1).fdiv 100 + (y - 1).fdiv 400

/-- Days in year `y` before the first of month `m`. -/
def days_before_month (y m : Nat) : Nat :=
  (List.range (m - 1)).foldl (fun a i => a + days_in_month y (i + 1)) 0

/-- `datetime`'s `_ymd2ord` (`date.toordinal`): day 1 is 0001-01-01. -/
def ymd2ord (dt : Date) : Int :=
  days_before_year dt.year + days_before_month dt.year dt.month + dt.day

/-- Python `date` comparison (lexicographic on year, month, day). -/
def dateLe (a b : Date) : Bool :=
  decide (a.year < b.year) ||
    (decide (a.year = b.year) &&
      (decide (a.month < b.month) ||
        (decide (a.month = b.month) && decide (a.day ≤ b.day))))

/-- `datetime`'s `_isoweek1monday`: ordinal of the Monday starting ISO
week 1 of `year` (the week containing the first Thursday). -/
def isoweek1monday (year : Int) : Int :=
  let firstday := days_before_year year + 1
  let firstweekday := (firstday + 6).emod 7
  let week1monday := firstday - firstweekday
  if firstweekday > 3 then week1monday + 7 else week1monday

/-- Python `date.isocalendar`, restricted to the `(year, week)`
components the source reads (indices 0 and 1). -/
def isocalendar (dt : Date) : Int × Int :=
  let year : Int := dt.year
  let today := ymd2ord dt
  let week := (today - isoweek1monday year).fdiv 7
  if week < 0 then
    (year - 1, (today - isoweek1monday (year - 1)).fdiv 7 + 1)
  else if 52 ≤ week ∧ isoweek1monday (year + 1) ≤ today then
    (year + 1, 1)
  else
    (year, week + 1)

/-! ## Date patterns and `parse_date_from_filename` (lines 44-67) -/

/-- One token of the fixed regular-expression date patterns of
`parse_date_from_filename`: a run of exactly `n` digits, or a literal
character. -/
inductive Tok where
  | digits (n : Nat)
  | lit (c : Char)

/-- Match a token list at the start of `s` (how Python's `re` matches
these backtracking-free patterns at one position), returning the
matched characters. -/
def matchToks : List Tok → List Char → Option (List Char)
  | [], _ => some []
  | Tok.digits n :: ts, s =>
      let pre := s.take n
      if pre.length = n ∧ pre.all Char.isDigit then
        (matchToks ts (s.drop n)).map (fun r => pre ++ r)
      else none
  | Tok.lit _ :: _, [] => none
  | Tok.lit c :: ts, d :: s =>
      if d = c then (matchToks ts s).map (fun r => c :: r) else none

/-- `re.search`: the match at the leftmost position where the pattern
matches, if any. -/
def reSearch (toks : List Tok) : List Char → Option (List Char)
  | [] => matchToks toks []
  | c :: cs =>
      match matchToks toks (c :: cs) with
      | some m => some m
      | none => reSearch toks cs

/-- The six patterns of `parse_date_from_filename`, in source order. -/
def date_patterns : List (List Tok) :=
  [ [Tok.digits 4, Tok.lit '-', Tok.digits 2, Tok.lit '-', Tok.digits 2],
    [Tok.digits 4, Tok.lit '_', Tok.digits 2, Tok.lit '_', Tok.digits 2],
    [Tok.digits 8],
    [Tok.digits 4, Tok.lit '-', Tok.digits 2, Tok.lit '-', Tok.digits 2,
     Tok.lit '_', Tok.digits 2, Tok.lit '-', Tok.digits 2],
    [Tok.digits 4, Tok.lit '_', Tok.digits 2, Tok.lit '_', Tok.digits 2,
     Tok.lit '_', Tok.digits 2, Tok.lit '_', Tok.digits 2],
    [Tok.digits 8, Tok.lit '_', Tok.digits 4] ]

/-- Decimal value of a digit string. -/
def digitsToNat (cs : List Char) : Nat :=
  cs.foldl (fun a c => a * 10 + (c.toNat - 48)) 0

/-- `datetime.date` constructor validity: the range checks `strptime`
ends with (year 1-9999, month 1-12, day within the month). -/
def validDate (y m d : Nat) : Bool :=
  1 ≤ y && y ≤ 9999 && 1 ≤ m && m ≤ 12 && 1 ≤ d && d ≤ days_in_month y m

/-- `datetime.strptime(s, "%Y%m%d").date()` on a matched pattern text:
the 4/2/2 digit split, then date validation; `none` models the
`ValueError` the source catches. -/
def strptime_Ymd8 (cs : List Char) : Option Date :=
  if cs.length = 8 ∧ cs.all Char.isDigit then
    let y := digitsToNat (cs.take 4)
    let m := digitsToNat ((cs.drop 4).take 2)
    let d := digitsToNat (cs.drop 6)
    if validDate y m d then some ⟨y, m, d⟩ else none
  else none

/-- `datetime.strptime(s, "%Y-%m-%d").date()` on a matched pattern
text: the text must be exactly `dddd-dd-dd` (any longer match leaves
unconverted data, any `_` separator fails the format — both raise
`ValueError` in Python, modelled as `none`), then date validation. -/
def strptime_Y_m_d (cs : List Char) : Option Date :=
  match cs with
  | [y1, y2, y3, y4, s1, m1, m2, s2, d1, d2] =>
      if ([y1, y2, y3, y4, m1, m2, d1, d2].all Char.isDigit
            && s1 = '-' && s2 = '-') then
        let y := digitsToNat [y1, y2, y3, y4]
        let m := digitsToNat [m1, m2]
        let d := digitsToNat [d1, d2]
        if validDate y m d then some ⟨y, m, d⟩ else none
      else none
  | _ => none

/-- The pattern loop of `parse_date_from_filename` (lines 55-65): first
pattern that matches and parses wins; a match that fails to parse (the
caught `ValueError`) falls through to the next pattern. -/
def tryPatterns (s : List Char) : List (List Tok) → Option Date
  | [] => none
  | p :: ps =>
      match reSearch p s with
      | none => tryPatterns s ps
      | some m =>
          match (if m.length = 8 then strptime_Ymd8 m else strptime_Y_m_d m) with
          | some dt => some dt
          | none => tryPatterns s ps

/-- `parse_date_from_filename` (lines 44-67). -/
def parse_date_from_filename (filename : String) : Option Date :=
  tryPatterns filename.toList date_patterns

/-! ## `should_preserve` (lines 69-89) -/

/-- The parsed command-line options the core reads (lines 246-256). -/
structure Args where
  filepath : String
  dry_run : Bool
  use_filename : Bool
  max_age_daily : Int
  max_age_weekly : Int
  max_age_monthly : Int
  max_age_yearly : Int
  force : Bool

/-- The `reasons` list built by `should_preserve` (lines 70-87):
`age = (current_date - file_date).days` is the ordinal difference. -/
def retention_reasons (file_date current_date : Date) (args : Args) : List String :=
  let age : Int := ymd2ord current_date - ymd2ord file_date
  (if age ≤ args.max_age_daily then ["daily"] else []) ++
  (if args.max_age_daily < age ∧ age ≤ args.max_age_weekly then ["weekly"] else []) ++
  (if age ≤ args.max_age_monthly ∧ file_date.day = 1 then ["monthly"] else []) ++
  (if age ≤ args.max_age_yearly ∧ file_date.month = 1 ∧ file_date.day = 1
     then ["yearly"] else [])

/-- `should_preserve` (lines 69-89).  Python returns the pair
`(len(reasons) > 0, ", ".join(reasons) if reasons else None)`; the
reasons are kept as the list here and joined by `reasonString` where
the caller consumes the string. -/
def should_preserve (file_date current_date : Date) (args : Args) :
    Bool × List String :=
  let reasons := retention_reasons file_date current_date args
  (decide (0 < reasons.length), reasons)

/-- `", ".join(reasons)`. -/
def reasonString (reasons : List String) : String :=
  String.intercalate ", " reasons

/-- `pat` is a prefix of `s` (character lists). -/
def listPrefixB : List Char → List Char → Bool
  | [], _ => true
  | _ :: _, [] => false
  | a :: as, b :: bs => a == b && listPrefixB as bs

/-- `pat` occurs as a contiguous substring of `s`. -/
def subOccursB (pat : List Char) : List Char → Bool
  | [] => listPrefixB pat []
  | c :: cs => listPrefixB pat (c :: cs) || subOccursB pat cs

/-- Python's `pat in s` substring test on strings, used by the source
as `"weekly" in reason` (line 124). -/
def strContains (s pat : String) : Bool :=
  subOccursB pat.toList s.toList

/-! ## `process_backups` (lines 91-136) -/

/-- One entry of `os.listdir(args.filepath)` together with the two
filesystem facts the source reads about it: `os.path.isdir` and the
`datetime.fromtimestamp(os.path.getmtime(...)).date()` modification
date. -/
structure DirEntry where
  name : String
  is_dir : Bool
  mtime : Date
deriving DecidableEq

/-- Date resolution for one entry (lines 102-107): the filename parse
with modification-date fallback when `--use-filename` is set, the
modification date otherwise. -/
def resolve_backup_date (use_filename : Bool) (e : DirEntry) : Date :=
  if use_filename then
    match parse_date_from_filename e.name with
    | some d => d
    | none => e.mtime
  else e.mtime

/-- Stable insertion keeping the list sorted by date descending: the
new element goes after every element with an equal or later date. -/
def sortInsert (b : String × Date) :
    List (String × Date) → List (String × Date)
  | [] => [b]
  | y :: ys => if dateLe b.2 y.2 then y :: sortInsert b ys else b :: y :: ys

/-- `backups.sort(key=lambda x: x[1], reverse=True)` (line 115):
Python's stable sort, by backup date descending, ties keeping the
original (listing) order.  A stable sort result is unique, so stable
insertion sort models it exactly. -/
def sort_by_date_desc (l : List (String × Date)) : List (String × Date) :=
  l.foldl (fun acc b => sortInsert b acc) []

/-- The mutable state of the classification loop (lines 117-119):
`preserved`, `deleted`, and the `weekly_preserved` set of week keys,
modelled as a duplicate-free list. -/
structure ClassState where
  preserved : List (String × Date × String)
  deleted : List (String × Date)
  weekly_preserved : List (Int × Int)

/-- Membership in the `weekly_preserved` set. -/
def keyMem (k : Int × Int) (l : List (Int × Int)) : Bool :=
  l.any (fun x => decide (x = k))

/-- One iteration of the classification loop (lines 121-134). -/
def classStep (current_date : Date) (args : Args)
    (s : ClassState) (b : String × Date) : ClassState :=
  let kr := should_preserve b.2 current_date args
  if kr.1 then
    if strContains (reasonString kr.2) "weekly" then
      let week_key := isocalendar b.2
      if keyMem week_key s.weekly_preserved = false ∧
          s.weekly_preserved.length < 2 then
        { preserved := s.preserved ++ [(b.1, b.2, reasonString kr.2)]
          deleted := s.deleted
          weekly_preserved := s.weekly_preserved ++ [week_key] }
      else
        { preserved := s.preserved
          deleted := s.deleted ++ [(b.1, b.2)]
          weekly_preserved := s.weekly_preserved }
    else
      { preserved := s.preserved ++ [(b.1, b.2, reasonString kr.2)]
        deleted := s.deleted
        weekly_preserved := s.weekly_preserved }
  else
    { preserved := s.preserved
      deleted := s.deleted ++ [(b.1, b.2)]
      weekly_preserved := s.weekly_preserved }

/-- `process_backups` (lines 91-136).  `current_date` is
`datetime.now().date()` and `entries` the `os.listdir` result, both
environmental inputs.  Entries that are not directories are skipped
(lines 99-100).  The `weekly_backups` grouping dictionary built at
lines 110-112 is dead code — it is never read afterwards — and is
omitted. -/
def process_backups (args : Args) (current_date : Date)
    (entries : List DirEntry) :
    List (String × Date × String) × List (String × Date) :=
  let backups := (entries.filter (fun e => e.is_dir)).map
    (fun e => (e.name, resolve_backup_date args.use_filename e))
  let sorted := sort_by_date_desc backups
  let final := sorted.foldl (classStep current_date args)
    ⟨[], [], []⟩
  (final.preserved, final.deleted)

/-! ## `remove_directory` and `delete_backups` (lines 195-233) -/

/-- The log lines the deletion path emits (`logging.info` /
`logging.error` calls of lines 199-233). -/
inductive LogEvent where
  | dryRunDone
  | cancelled
  | skipConfirm
  | startDeletion (n : Nat)
  | deletedDir (path : String)
  | errorDeleting (path : String) (cause : String)
  | deletionComplete (n : Nat)
deriving DecidableEq

/-- Observable outcome of `delete_backups`: the paths handed to
`shutil.rmtree` in order, the emitted log events, and the lines printed
to standard output. -/
structure DeleteOutcome where
  attempted : List String
  logs : List LogEvent
  prints : List String
deriving DecidableEq

/-- `remove_directory` (lines 195-203).  The filesystem is an oracle
giving, for each path, either success (`none`) or the message of the
exception `shutil.rmtree` raises (`some cause`); the `try/except`
catches it, logs it, and returns normally either way. -/
def remove_directory (oracle : String → Option String) (path : String) :
    LogEvent :=
  match oracle path with
  | none => LogEvent.deletedDir path
  | some e => LogEvent.errorDeleting path e

/-- Python `str.lower()` applied to the confirmation reply (ASCII
case folding, which is all the `yes` comparison needs). -/
def pyLower (s : String) : String :=
  String.mk (s.data.map Char.toLower)

/-- `os.path.join(args.filepath, filename)` for the plain relative
names produced by `os.listdir`. -/
def joinPath (base name : String) : String :=
  base ++ "/" ++ name

/-- `delete_backups` (lines 205-233), with the interactive reply and
the per-path `shutil.rmtree` outcome as explicit inputs. -/
def delete_backups (args : Args) (deleted : List (String × Date))
    (reply : String) (oracle : String → Option String) : DeleteOutcome :=
  if args.dry_run then
    { attempted := []
      logs := [LogEvent.dryRunDone]
      prints := ["Dry run completed. No files were deleted."] }
  else
    let total := deleted.length
    let header := ["Preparing to delete " ++ toString total ++ " backup(s)."]
    if args.force = false ∧ pyLower reply ≠ "yes" then
      { attempted := []
        logs := [LogEvent.cancelled]
        prints := header ++ ["Deletion cancelled."] }
    else
      let items := deleted.map (fun p => joinPath args.filepath p.1)
      let progress := deleted.enum.map (fun p =>
        "Deleting " ++ toString (p.1 + 1) ++ "/" ++ toString total ++
          ": " ++ p.2.1)
      { attempted := items
        logs := (if args.force then [LogEvent.skipConfirm] else []) ++
          [LogEvent.startDeletion total] ++
          items.map (remove_directory oracle) ++
          [LogEvent.deletionComplete total]
        prints := header ++ progress ++
          ["Deletion complete. " ++ toString total ++ " backup(s) processed."] }

/-! ## The validation prologue of `main` (lines 258-276) -/

/-- The stream an error message is printed to. -/
inductive OutStream where
  | stdout
  | stderr
deriving DecidableEq

/-- The filesystem facts `main` checks about the target path:
`os.path.exists`, `os.path.isdir`, `os.access(..., os.R_OK)`. -/
structure PathStatus where
  pexists : Bool
  is_dir : Bool
  readable : Bool
deriving DecidableEq

/-- What the prologue of `main` decides: the stream carrying an error
message (if any), the process exit code, and whether scanning
(`process_backups`) is reached. -/
structure MainOutcome where
  err_out : Option OutStream
  exit_code : Nat
  scanned : Bool
deriving DecidableEq

/-- The validation prologue of `main` (lines 258-276).  A missing
positional argument prints help and returns (exit 0).  The three path
checks print their message with `print` — standard output — and
`return` from `main`, so the process exits 0.  The threshold check
calls `parser.error`, which argparse defines as: print usage and the
message to standard error and call `sys.exit(2)`.  On success `main`
proceeds to scanning. -/
def main_validate (filepath_given : Bool) (ps : PathStatus) (args : Args) :
    MainOutcome :=
  if filepath_given = false then
    { err_out := none, exit_code := 0, scanned := false }
  else if ps.pexists = false then
    { err_out := some OutStream.stdout, exit_code := 0, scanned := false }
  else if ps.is_dir = false then
    { err_out := some OutStream.stdout, exit_code := 0, scanned := false }
  else if ps.readable = false then
    { err_out := some OutStream.stdout, exit_code := 0, scanned := false }
  else if args.max_age_daily > args.max_age_weekly ∨
      args.max_age_weekly > args.max_age_monthly ∨
      args.max_age_monthly > args.max_age_yearly then
    { err_out := some OutStream.stderr, exit_code := 2, scanned := false }
  else
    { err_out := none, exit_code := 0, scanned := true }

/-! ## Spec-side definition for the monthly-tier refinement claim -/

/-- Modelled from the spec's words, for comparison with the code's
monthly rule: policy (a), "the monthly tier preserves an artifact with
`age ≤ maxAgeMonthly` iff it is the most recent artifact of its
calendar month". -/
def spec_monthly_keeps (backups : List (String × Date))
    (current_date : Date) (args : Args) (b : String × Date) : Prop :=
  ymd2ord current_date - ymd2ord b.2 ≤ args.max_age_monthly ∧
  b ∈ backups ∧
  ∀ c ∈ backups, c.2.year = b.2.year → c.2.month = b.2.month →
    dateLe c.2 b.2 = true

/-! ## Concrete configurations and inputs used by the theorems below -/

/-- Whether a classified artifact's stored reason string names the
weekly tier (the property `"weekly" in reason` the loop tests). -/
def weekly_tagged (p : String × Date × String) : Bool :=
  strContains p.2.2 "weekly"

/-- The default options of the argument parser (lines 246-256). -/
def args0 : Args := ⟨"backups", false, false, 30, 365, 1095, 1095, false⟩

/-- Thresholds putting every test artifact in the weekly window only. -/
def args_c1 : Args := ⟨"backups", false, false, 0, 365, 365, 365, false⟩

/-- Three backup directories in three distinct ISO weeks (2024 weeks
8, 7 and 6), each the sole member of its week group. -/
def entries_c1 : List DirEntry :=
  [⟨"b1", true, ⟨2024, 2, 19⟩⟩, ⟨"b2", true, ⟨2024, 2, 12⟩⟩,
   ⟨"b3", true, ⟨2024, 2, 5⟩⟩]

/-- Thresholds for the monthly-tier counterexample: the artifact aged
35 days is outside daily (5) and weekly (10), inside monthly (100). -/
def args_c2 : Args := ⟨"backups", false, false, 5, 10, 100, 200, false⟩

/-- Default options with `--use-filename` set. -/
def args_uf : Args := ⟨"backups", false, true, 30, 365, 1095, 1095, false⟩

/-- Default options with `--force` set and target path `base`. -/
def args_force : Args := ⟨"base", false, false, 30, 365, 1095, 1095, true⟩

/-- A filesystem where removing `base/a` raises a permission error and
every other removal succeeds. -/
def oracle_fail : String → Option String :=
  fun p => if p = "base/a" then some "Permission denied" else none

/-! ## Helper lemmas -/

theorem sortInsert_perm (b : String × Date) (l : List (String × Date)) :
    List.Perm (sortInsert b l) (b :: l) := by
  induction l with
  | nil => simp [sortInsert]
  | cons y ys ih =>
      simp only [sortInsert]
      split
      · exact (ih.cons y).trans (List.Perm.swap b y ys)
      · exact List.Perm.refl _

theorem sort_fold_perm (l acc : List (String × Date)) :
    List.Perm (l.foldl (fun a b => sortInsert b a) acc) (l ++ acc) := by
  induction l generalizing acc with
  | nil => simp
  | cons b bs ih =>
      simp only [List.foldl_cons, List.cons_append]
      exact (ih (sortInsert b acc)).trans
        ((List.Perm.append_left bs (sortInsert_perm b acc)).trans List.perm_middle)

theorem sort_perm (l : List (String × Date)) :
    List.Perm (sort_by_date_desc l) l := by
  simpa using sort_fold_perm l []

theorem classStep_preserved_mono (cd : Date) (args : Args) (s : ClassState)
    (b : String × Date) :
    s.preserved ⊆ (classStep cd args s b).preserved := by
  unfold classStep
  dsimp only
  split_ifs
  all_goals simp [List.subset_append_left]

theorem fold_preserved_mono (cd : Date) (args : Args)
    (l : List (String × Date)) (s : ClassState) :
    s.preserved ⊆ (l.foldl (classStep cd args) s).preserved := by
  induction l generalizing s with
  | nil => exact fun _ h => h
  | cons b bs ih =>
      exact fun p hp => ih (classStep cd args s b)
        (classStep_preserved_mono cd args s b hp)

theorem daily_keep (fd cd : Date) (args : Args)
    (h : ymd2ord cd - ymd2ord fd ≤ args.max_age_daily) :
    (should_preserve fd cd args).1 = true ∧
    strContains (reasonString (should_preserve fd cd args).2) "weekly" = false := by
  unfold should_preserve retention_reasons
  dsimp only
  split_ifs with h1 h2 h3 h4 <;> first
    | (exfalso; omega)
    | decide

theorem fold_daily_hit (cd : Date) (args : Args)
    (l : List (String × Date)) (s : ClassState) (x : String × Date)
    (hx : x ∈ l) (h : ymd2ord cd - ymd2ord x.2 ≤ args.max_age_daily) :
    ∃ r, (x.1, x.2, r) ∈ (l.foldl (classStep cd args) s).preserved := by
  induction l generalizing s with
  | nil => cases hx
  | cons b bs ih =>
      rcases List.mem_cons.mp hx with rfl | hx
      · refine ⟨reasonString (should_preserve x.2 cd args).2, ?_⟩
        rw [List.foldl_cons]
        apply fold_preserved_mono
        obtain ⟨hk, hw⟩ := daily_keep x.2 cd args h
        unfold classStep
        dsimp only
        simp [hk, hw]
      · exact ih (classStep cd args s b) hx

theorem classStep_weekly_inv (cd : Date) (args : Args) (s : ClassState)
    (b : String × Date)
    (h1 : s.preserved.countP weekly_tagged ≤ s.weekly_preserved.length)
    (h2 : s.weekly_preserved.length ≤ 2) :
    (classStep cd args s b).preserved.countP weekly_tagged ≤
      (classStep cd args s b).weekly_preserved.length ∧
    (classStep cd args s b).weekly_preserved.length ≤ 2 := by
  unfold classStep
  dsimp only
  split_ifs with hk hw hg
  · constructor
    · simp [List.countP_append, List.countP_cons, weekly_tagged, hw]
      omega
    · simp only [List.length_append, List.length_cons, List.length_nil]
      omega
  · exact ⟨h1, h2⟩
  · constructor
    · simp [List.countP_append, List.countP_cons, weekly_tagged, hw]
      omega
    · exact h2
  · exact ⟨h1, h2⟩

theorem fold_weekly_inv (cd : Date) (args : Args)
    (l : List (String × Date)) (s : ClassState)
    (h1 : s.preserved.countP weekly_tagged ≤ s.weekly_preserved.length)
    (h2 : s.weekly_preserved.length ≤ 2) :
    (l.foldl (classStep cd args) s).preserved.countP weekly_tagged ≤
      (l.foldl (classStep cd args) s).weekly_preserved.length ∧
    (l.foldl (classStep cd args) s).weekly_preserved.length ≤ 2 := by
  induction l generalizing s with
  | nil => exact ⟨h1, h2⟩
  | cons b bs ih =>
      rw [List.foldl_cons]
      obtain ⟨g1, g2⟩ := classStep_weekly_inv cd args s b h1 h2
      exact ih (classStep cd args s b) g1 g2

theorem classStep_capped (cd : Date) (args : Args) (s : ClassState)
    (b : String × Date)
    (hr : retention_reasons b.2 cd args = ["weekly"])
    (hlen : 2 ≤ s.weekly_preserved.length) :
    (classStep cd args s b).deleted = s.deleted ++ [(b.1, b.2)] ∧
    (classStep cd args s b).preserved = s.preserved := by
  have h3 : ¬ (keyMem (isocalendar b.2) s.weekly_preserved = false ∧
      s.weekly_preserved.length < 2) := by
    rintro ⟨-, hc⟩
    omega
  unfold classStep should_preserve
  dsimp only
  rw [hr]
  simp +decide [h3]

theorem classStep_names_perm (cd : Date) (args : Args) (s : ClassState)
    (b : String × Date) :
    List.Perm
      ((classStep cd args s b).preserved.map (fun p => p.1) ++
        (classStep cd args s b).deleted.map (fun p => p.1))
      (s.preserved.map (fun p => p.1) ++ s.deleted.map (fun p => p.1) ++ [b.1]) := by
  unfold classStep
  dsimp only
  split_ifs <;> rw [← Multiset.coe_eq_coe] <;>
    simp only [List.map_append, List.map_cons, List.map_nil, ← Multiset.coe_add,
      Multiset.cons_coe, ← Multiset.singleton_add] <;> abel

theorem fold_names_perm (cd : Date) (args : Args)
    (l : List (String × Date)) (s : ClassState) :
    List.Perm
      ((l.foldl (classStep cd args) s).preserved.map (fun p => p.1) ++
        (l.foldl (classStep cd args) s).deleted.map (fun p => p.1))
      (s.preserved.map (fun p => p.1) ++ s.deleted.map (fun p => p.1) ++
        l.map (fun p => p.1)) := by
  induction l generalizing s with
  | nil => simp
  | cons b bs ih =>
      rw [List.foldl_cons]
      refine (ih (classStep cd args s b)).trans ?_
      rw [← Multiset.coe_eq_coe] at *
      have h := classStep_names_perm cd args s b
      rw [← Multiset.coe_eq_coe] at h
      simp only [← Multiset.coe_add] at *
      simp only [List.map_cons, ← Multiset.cons_coe]
      rw [show ((classStep cd args s b).preserved.map (fun p => p.1) : Multiset String) +
        ((classStep cd args s b).deleted.map (fun p => p.1) : Multiset String) =
        (s.preserved.map (fun p => p.1) : Multiset String) +
        (s.deleted.map (fun p => p.1) : Multiset String) + [b.1] from h]
      simp only [← Multiset.coe_add, Multiset.cons_coe, ← Multiset.singleton_add,
        Multiset.coe_singleton]
      abel

/-! ## Claim theorems -/

/-- C1 (failing-input evaluation): the spec requires one weekly
survivor for EVERY non-empty ISO week group in the weekly window, but
the loop guard `len(weekly_preserved) < 2` (line 126) stops adding
week keys after two.  On three backups lying in three distinct ISO
weeks (2024 weeks 8, 7, 6), each the sole member of its group and each
with the weekly tier as its only reason, the code preserves the first
two and dispositions the third for deletion, although its week group
is non-empty and no other backup represents it. -/
theorem c1_weekly_cap_failing_eval :
    process_backups args_c1 ⟨2024, 3, 1⟩ entries_c1 =
      ([("b1", ⟨2024, 2, 19⟩, "weekly"), ("b2", ⟨2024, 2, 12⟩, "weekly")],
       [("b3", ⟨2024, 2, 5⟩)]) ∧
    isocalendar ⟨2024, 2, 5⟩ ≠ isocalendar ⟨2024, 2, 12⟩ ∧
    isocalendar ⟨2024, 2, 5⟩ ≠ isocalendar ⟨2024, 2, 19⟩ ∧
    retention_reasons ⟨2024, 2, 5⟩ ⟨2024, 3, 1⟩ args_c1 = ["weekly"] := by
  decide

/-- C2 (counterexample): the claim says that within the monthly window
the monthly tier preserves exactly the most recent artifact of each
calendar month (spec policy (a)).  The artifact dated 2023-06-15 is
the most recent (indeed only) artifact of its calendar month and lies
inside the monthly window (age 35 ≤ 100), so the claim requires the
monthly tier to preserve it; the code gives it no reason at all (its
day of month is not 1, line 82) and deletes it. -/
theorem c2_most_recent_month_counterexample :
    spec_monthly_keeps [("x", ⟨2023, 6, 15⟩)] ⟨2023, 7, 20⟩ args_c2
      ("x", ⟨2023, 6, 15⟩) ∧
    "monthly" ∉ retention_reasons ⟨2023, 6, 15⟩ ⟨2023, 7, 20⟩ args_c2 ∧
    process_backups args_c2 ⟨2023, 7, 20⟩ [⟨"x", true, ⟨2023, 6, 15⟩⟩] =
      ([], [("x", ⟨2023, 6, 15⟩)]) := by
  refine ⟨⟨by decide, by simp, ?_⟩, by decide, by decide⟩
  intro c hc h1 h2
  simp at hc
  subst hc
  decide

/-- C2 (amended): the monthly tier preserves an artifact iff its age
is within the monthly window AND its backup date falls on the first
day of a month (line 82); the yearly tier preserves an artifact iff
its age is within the yearly window AND its backup date is January 1
(line 86) — "first day of period", not "most recent per period". -/
theorem c2_first_day_rule :
    ∀ (file_date current_date : Date) (args : Args),
    ("monthly" ∈ retention_reasons file_date current_date args ↔
      (ymd2ord current_date - ymd2ord file_date ≤ args.max_age_monthly ∧
        file_date.day = 1)) ∧
    ("yearly" ∈ retention_reasons file_date current_date args ↔
      (ymd2ord current_date - ymd2ord file_date ≤ args.max_age_yearly ∧
        file_date.month = 1 ∧ file_date.day = 1)) := by
  intro fd cd args
  unfold retention_reasons
  dsimp only
  split_ifs with h1 h2 h3 h4 <;> simp_all

/-- C3 (counterexample): the claim says every entry of the target
directory, file or directory, is an artifact and gets a disposition,
and in particular a regular file named `backup_2023-06-15.tar` under
`useFilename=true` resolves its date from the filename and is
classified.  The code skips every non-directory entry (lines 99-100):
on a directory listing containing exactly that regular file, the run
produces no disposition at all — the file is neither preserved nor
deleted (and its parseable filename date is never used). -/
theorem c3_regular_file_skipped_counterexample :
    parse_date_from_filename "backup_2023-06-15.tar" = some ⟨2023, 6, 15⟩ ∧
    process_backups args_uf ⟨2023, 6, 20⟩
      [⟨"backup_2023-06-15.tar", false, ⟨2023, 6, 1⟩⟩] = ([], []) := by
  decide

/-- C3 (amended): only directory entries are artifacts.  Regular
files are skipped entirely — the classification result is unchanged
when they are removed from the listing — and each directory entry
receives exactly one disposition: the names in the preserved and
deleted lists together are a permutation of the names of the
directory entries (each directory entry is resolved to exactly one
backup date by `resolve_backup_date` along the way). -/
theorem c3_directories_only_partition :
    ∀ (args : Args) (current_date : Date) (entries : List DirEntry),
    process_backups args current_date entries =
      process_backups args current_date (entries.filter (fun e => e.is_dir)) ∧
    List.Perm
      ((process_backups args current_date entries).1.map (fun p => p.1) ++
        (process_backups args current_date entries).2.map (fun p => p.1))
      ((entries.filter (fun e => e.is_dir)).map (fun e => e.name)) := by
  intro args cd entries
  constructor
  · unfold process_backups
    simp [List.filter_filter]
  · unfold process_backups
    dsimp only
    refine (fold_names_perm cd args _ _).trans ?_
    simp only [List.map_nil, List.nil_append]
    refine ((sort_perm _).map (fun p => p.1)).trans ?_
    rw [List.map_map]
    exact List.Perm.refl _

/-- C4: every directory artifact whose age is at most `maxAgeDaily`
ends up in the preserved list, whatever the other tiers do (the daily
window and the weekly window are disjoint, so the weekly dedup branch
can never capture a daily artifact).  An artifact dated in the future
(age ≤ 0) is covered whenever the configured `maxAgeDaily` is
non-negative. -/
theorem c4_daily_window_preserved
    (args : Args) (current_date : Date) (entries : List DirEntry)
    (e : DirEntry) (hmem : e ∈ entries) (hdir : e.is_dir = true)
    (hage : ymd2ord current_date -
        ymd2ord (resolve_backup_date args.use_filename e) ≤
          args.max_age_daily ∨
      (0 ≤ args.max_age_daily ∧
        ymd2ord current_date -
          ymd2ord (resolve_backup_date args.use_filename e) ≤ 0)) :
    ∃ r, (e.name, resolve_backup_date args.use_filename e, r) ∈
      (process_backups args current_date entries).1 := by
  have hage2 : ymd2ord current_date -
      ymd2ord (resolve_backup_date args.use_filename e) ≤ args.max_age_daily := by
    rcases hage with h | ⟨h1, h2⟩
    · exact h
    · omega
  unfold process_backups
  dsimp only
  have hm : (e.name, resolve_backup_date args.use_filename e) ∈
      (entries.filter (fun e => e.is_dir)).map
        (fun e => (e.name, resolve_backup_date args.use_filename e)) :=
    List.mem_map_of_mem _ (List.mem_filter.mpr ⟨hmem, hdir⟩)
  exact fold_daily_hit current_date args _ _
    (e.name, resolve_backup_date args.use_filename e)
    (((sort_perm _).mem_iff).mpr hm) hage2

/-- C4 (witness): a backup two days old under the default thresholds
is preserved. -/
theorem c4_daily_window_preserved_witness :
    (⟨"recent", true, ⟨2024, 2, 28⟩⟩ : DirEntry) ∈
      [(⟨"recent", true, ⟨2024, 2, 28⟩⟩ : DirEntry)] ∧
    (⟨"recent", true, ⟨2024, 2, 28⟩⟩ : DirEntry).is_dir = true ∧
    ymd2ord ⟨2024, 3, 1⟩ -
      ymd2ord (resolve_backup_date args0.use_filename
        ⟨"recent", true, ⟨2024, 2, 28⟩⟩) ≤ args0.max_age_daily ∧
    ∃ r, ("recent", (⟨2024, 2, 28⟩ : Date), r) ∈
      (process_backups args0 ⟨2024, 3, 1⟩
        [⟨"recent", true, ⟨2024, 2, 28⟩⟩]).1 :=
  ⟨by decide, rfl, by decide,
    c4_daily_window_preserved args0 ⟨2024, 3, 1⟩
      [⟨"recent", true, ⟨2024, 2, 28⟩⟩] ⟨"recent", true, ⟨2024, 2, 28⟩⟩
      (by decide) rfl (Or.inl (by decide))⟩

/-- C5 (counterexample): the claim says a missing target path makes
the program print to standard error and exit non-zero.  In the code
the three path checks use `print` (standard output) and a bare
`return` from `main` (lines 263-271), so the process exits 0 with the
message on standard output. -/
theorem c5_exit_code_counterexample :
    ¬ ((main_validate true ⟨false, true, true⟩ args0).exit_code ≠ 0 ∧
       (main_validate true ⟨false, true, true⟩ args0).err_out =
         some OutStream.stderr) := by
  decide

/-- C5 (amended): a missing / non-directory / unreadable target path
prints the error to standard output and exits 0 without scanning;
non-monotonic thresholds (checked only after the path checks pass) go
through `parser.error`, which prints to standard error and exits 2,
still without scanning; a fully valid invocation proceeds to scanning
with exit code 0. -/
theorem c5_validation_behavior (given : Bool) (ps : PathStatus) (args : Args) :
    (given = true →
      (ps.pexists = false ∨ ps.is_dir = false ∨ ps.readable = false) →
      main_validate given ps args = ⟨some OutStream.stdout, 0, false⟩) ∧
    (given = true → ps.pexists = true → ps.is_dir = true → ps.readable = true →
      (args.max_age_daily > args.max_age_weekly ∨
        args.max_age_weekly > args.max_age_monthly ∨
        args.max_age_monthly > args.max_age_yearly) →
      main_validate given ps args = ⟨some OutStream.stderr, 2, false⟩) ∧
    (given = true → ps.pexists = true → ps.is_dir = true → ps.readable = true →
      args.max_age_daily ≤ args.max_age_weekly →
      args.max_age_weekly ≤ args.max_age_monthly →
      args.max_age_monthly ≤ args.max_age_yearly →
      main_validate given ps args = ⟨none, 0, true⟩) := by
  unfold main_validate
  refine ⟨?_, ?_, ?_⟩ <;> intros <;> split_ifs <;> simp_all <;> omega

/-- C5 (witness): the three branches evaluated at concrete inputs: a
missing path, daily threshold 400 above weekly 365, and the valid
default configuration. -/
theorem c5_validation_behavior_witness :
    main_validate true ⟨false, true, true⟩ args0 =
      ⟨some OutStream.stdout, 0, false⟩ ∧
    main_validate true ⟨true, true, true⟩ { args0 with max_age_daily := 400 } =
      ⟨some OutStream.stderr, 2, false⟩ ∧
    main_validate true ⟨true, true, true⟩ args0 = ⟨none, 0, true⟩ :=
  ⟨(c5_validation_behavior true ⟨false, true, true⟩ args0).1 rfl (Or.inl rfl),
   (c5_validation_behavior true ⟨true, true, true⟩
      { args0 with max_age_daily := 400 }).2.1 rfl rfl rfl rfl
      (Or.inl (by decide)),
   (c5_validation_behavior true ⟨true, true, true⟩ args0).2.2 rfl rfl rfl rfl
      (by decide) (by decide) (by decide)⟩

/-- C6: classification is independent of the dry-run flag —
`process_backups` returns the same preserved and deleted lists with
the flag set or unset — and with dry-run set the executor hands no
path to `shutil.rmtree` (no filesystem mutation occurs). -/
theorem c6_dry_run_parity :
    (∀ (args : Args) (b : Bool) (current_date : Date)
      (entries : List DirEntry),
      process_backups { args with dry_run := b } current_date entries =
        process_backups args current_date entries) ∧
    (∀ (args : Args) (deleted : List (String × Date)) (reply : String)
      (oracle : String → Option String),
      args.dry_run = true →
      (delete_backups args deleted reply oracle).attempted = []) := by
  constructor
  · intro args b cd entries
    rfl
  · intro args deleted reply oracle h
    simp [delete_backups, h]

/-- C6 (witness): a dry run over one marked backup attempts no
removal. -/
theorem c6_dry_run_parity_witness :
    ({ args0 with dry_run := true } : Args).dry_run = true ∧
    (delete_backups { args0 with dry_run := true } [("a", ⟨2023, 1, 1⟩)] "yes"
      (fun _ => none)).attempted = [] :=
  ⟨rfl, c6_dry_run_parity.2 { args0 with dry_run := true }
    [("a", ⟨2023, 1, 1⟩)] "yes" (fun _ => none) rfl⟩

/-- C7: the date resolver is total.  The filename
`backup_2023-13-40.tar` contains a substring matching the first date
pattern that is not a real calendar date; the parse returns `none`
(the `ValueError` is caught, the remaining patterns are tried and none
matches), so resolution falls back to the modification date.  In
general, resolution of any entry yields exactly one date: either the
modification-time fallback or the successfully parsed filename
date — never an error. -/
theorem c7_resolver_total :
    parse_date_from_filename "backup_2023-13-40.tar" = none ∧
    (∀ (dir : Bool) (m : Date),
      resolve_backup_date true ⟨"backup_2023-13-40.tar", dir, m⟩ = m) ∧
    (∀ (u : Bool) (e : DirEntry),
      resolve_backup_date u e = e.mtime ∨
      ∃ d, parse_date_from_filename e.name = some d ∧
        resolve_backup_date u e = d) := by
  refine ⟨by decide, ?_, ?_⟩
  · intro dir m
    simp [resolve_backup_date,
      show parse_date_from_filename "backup_2023-13-40.tar" = none by decide]
  · intro u e
    unfold resolve_backup_date
    cases u
    · simp
    · cases hp : parse_date_from_filename e.name
      · simp [hp]
      · exact Or.inr ⟨_, rfl, by simp⟩

/-- C8: with dry-run unset and force unset, the executor reads the
confirmation reply before touching anything; a reply other than `yes`
(case-folded) aborts the whole run — no path is handed to
`shutil.rmtree` and the cancellation is logged — and for any reply the
outcome is all-or-nothing: either nothing is attempted or every item
of the delete set is. -/
theorem c8_confirmation_gate (args : Args) (deleted : List (String × Date))
    (reply : String) (oracle : String → Option String)
    (hdr : args.dry_run = false) (hf : args.force = false)
    (hno : pyLower reply ≠ "yes") :
    (delete_backups args deleted reply oracle).attempted = [] ∧
    LogEvent.cancelled ∈ (delete_backups args deleted reply oracle).logs ∧
    ∀ reply2 : String,
      (delete_backups args deleted reply2 oracle).attempted = [] ∨
      (delete_backups args deleted reply2 oracle).attempted =
        deleted.map (fun p => joinPath args.filepath p.1) := by
  refine ⟨?_, ?_, ?_⟩
  · simp [delete_backups, hdr, hf, hno]
  · simp [delete_backups, hdr, hf, hno]
  · intro reply2
    by_cases h2 : pyLower reply2 = "yes"
    · right
      simp [delete_backups, hdr, hf, h2]
    · left
      simp [delete_backups, hdr, hf, h2]

/-- C8 (witness): replying `no` to a one-item deletion cancels it. -/
theorem c8_confirmation_gate_witness :
    args0.dry_run = false ∧ args0.force = false ∧ pyLower "no" ≠ "yes" ∧
    (delete_backups args0 [("a", ⟨2023, 1, 1⟩)] "no"
      (fun _ => none)).attempted = [] ∧
    LogEvent.cancelled ∈
      (delete_backups args0 [("a", ⟨2023, 1, 1⟩)] "no" (fun _ => none)).logs :=
  ⟨rfl, rfl, by decide,
   (c8_confirmation_gate args0 [("a", ⟨2023, 1, 1⟩)] "no" (fun _ => none)
     rfl rfl (by decide)).1,
   (c8_confirmation_gate args0 [("a", ⟨2023, 1, 1⟩)] "no" (fun _ => none)
     rfl rfl (by decide)).2.1⟩

/-- C9 (counterexample): the claim says each per-item failure is
counted as an error in the reported summary.  The code logs the
failure (path and cause) but keeps no error counter: on a two-item
delete set where removing `base/a` raises a permission error, every
line the executor prints — including the final
`Deletion complete. 2 backup(s) processed.` summary — is identical to
the run where nothing fails, so the reported summary reflects no
error count; the full log stream likewise carries no count, only the
per-item error line. -/
theorem c9_no_error_count_counterexample :
    (delete_backups args_force [("a", ⟨2023, 1, 1⟩), ("b", ⟨2023, 1, 1⟩)] ""
        oracle_fail).prints =
      (delete_backups args_force [("a", ⟨2023, 1, 1⟩), ("b", ⟨2023, 1, 1⟩)] ""
        (fun _ => none)).prints ∧
    LogEvent.errorDeleting "base/a" "Permission denied" ∈
      (delete_backups args_force [("a", ⟨2023, 1, 1⟩), ("b", ⟨2023, 1, 1⟩)] ""
        oracle_fail).logs ∧
    (delete_backups args_force [("a", ⟨2023, 1, 1⟩), ("b", ⟨2023, 1, 1⟩)] ""
        oracle_fail).logs =
      [LogEvent.skipConfirm, LogEvent.startDeletion 2,
       LogEvent.errorDeleting "base/a" "Permission denied",
       LogEvent.deletedDir "base/b", LogEvent.deletionComplete 2] := by
  decide

/-- C9 (amended): each item's failure is caught and logged with the
path and the underlying cause, and never aborts the rest: whatever
the filesystem oracle does, every item of the delete set is attempted
(shown here under `force`; the confirmed interactive path reaches the
same loop).  No error count is kept — the printed summary reports
only the total processed. -/
theorem c9_continue_on_error (args : Args) (deleted : List (String × Date))
    (reply : String) (oracle : String → Option String)
    (hdr : args.dry_run = false) (hf : args.force = true) :
    (delete_backups args deleted reply oracle).attempted =
      deleted.map (fun p => joinPath args.filepath p.1) ∧
    ∀ (p : String) (e : String),
      p ∈ (delete_backups args deleted reply oracle).attempted →
      oracle p = some e →
      LogEvent.errorDeleting p e ∈
        (delete_backups args deleted reply oracle).logs := by
  constructor
  · simp [delete_backups, hdr, hf]
  · intro p e hp ho
    simp only [delete_backups, hdr, hf] at hp ⊢
    simp at hp
    simp [List.mem_append]
    obtain ⟨a, ha, hpa⟩ := hp
    refine ⟨a, ha, ?_⟩
    rw [hpa]
    simp [remove_directory, ho]

/-- C9 (witness): under `force`, a failing single-item run attempts
the item and logs the error with path and cause. -/
theorem c9_continue_on_error_witness :
    args_force.dry_run = false ∧ args_force.force = true ∧
    (delete_backups args_force [("a", ⟨2023, 1, 1⟩)] "" oracle_fail).attempted =
      ["base/a"] ∧
    LogEvent.errorDeleting "base/a" "Permission denied" ∈
      (delete_backups args_force [("a", ⟨2023, 1, 1⟩)] "" oracle_fail).logs :=
  ⟨rfl, rfl,
   (c9_continue_on_error args_force [("a", ⟨2023, 1, 1⟩)] "" oracle_fail
     rfl rfl).1,
   (c9_continue_on_error args_force [("a", ⟨2023, 1, 1⟩)] "" oracle_fail
     rfl rfl).2 "base/a" "Permission denied" (by decide) (by decide)⟩

/-- C10: across one run at most two classified artifacts carry a
weekly reason in the preserved list (each weekly survivor adds a
distinct week key and the guard `len(weekly_preserved) < 2` caps the
set at two, so at most two distinct ISO week groups ever receive a
weekly survivor); and once the set holds two keys, any further
artifact whose only preservation reason is the weekly tier is
appended to the deleted list no matter its week group. -/
theorem c10_weekly_two_group_cap :
    (∀ (args : Args) (current_date : Date) (entries : List DirEntry),
      (process_backups args current_date entries).1.countP weekly_tagged ≤ 2) ∧
    (∀ (current_date : Date) (args : Args) (s : ClassState)
      (b : String × Date),
      retention_reasons b.2 current_date args = ["weekly"] →
      2 ≤ s.weekly_preserved.length →
      (classStep current_date args s b).deleted = s.deleted ++ [(b.1, b.2)] ∧
      (classStep current_date args s b).preserved = s.preserved) := by
  constructor
  · intro args cd entries
    unfold process_backups
    dsimp only
    have h := fold_weekly_inv cd args
      (sort_by_date_desc ((entries.filter (fun e => e.is_dir)).map
        (fun e => (e.name, resolve_backup_date args.use_filename e))))
      ⟨[], [], []⟩ (by simp) (by simp)
    omega
  · exact fun cd args s b hr hlen => classStep_capped cd args s b hr hlen

/-- C10 (witness): with week keys (2024, 8) and (2024, 7) already in
the set, the weekly-only backup of 2024-02-05 (ISO week 6) is sent to
the deleted list. -/
theorem c10_weekly_two_group_cap_witness :
    retention_reasons ⟨2024, 2, 5⟩ ⟨2024, 3, 1⟩ args_c1 = ["weekly"] ∧
    2 ≤ ([((2024 : Int), (8 : Int)), ((2024 : Int), (7 : Int))]).length ∧
    (classStep ⟨2024, 3, 1⟩ args_c1
      ⟨[], [], [((2024 : Int), (8 : Int)), ((2024 : Int), (7 : Int))]⟩
      ("b3", ⟨2024, 2, 5⟩)).deleted = [("b3", ⟨2024, 2, 5⟩)] ∧
    (classStep ⟨2024, 3, 1⟩ args_c1
      ⟨[], [], [((2024 : Int), (8 : Int)), ((2024 : Int), (7 : Int))]⟩
      ("b3", ⟨2024, 2, 5⟩)).preserved = [] :=
  ⟨by decide, by decide,
   (c10_weekly_two_group_cap.2 ⟨2024, 3, 1⟩ args_c1
     ⟨[], [], [((2024 : Int), (8 : Int)), ((2024 : Int), (7 : Int))]⟩
     ("b3", ⟨2024, 2, 5⟩) (by decide) (by decide)).1,
   (c10_weekly_two_group_cap.2 ⟨2024, 3, 1⟩ args_c1
     ⟨[], [], [((2024 : Int), (8 : Int)), ((2024 : Int), (7 : Int))]⟩
     ("b3", ⟨2024, 2, 5⟩) (by decide) (by decide)).2⟩
